import Mathlib

/-!
Verification of the Lyngdorf protocol engine
(`custom_components/lyngdorf/pylyngdorf/protocol.py`) and the numeric
dB conversions (`custom_components/lyngdorf/pylyngdorf/models.py`),
shallowly embedded in Lean.

Modelling conventions:
* Python floats are modelled as exact rationals (the claims quantify only
  over values representable at 0.1 dB resolution, where the arithmetic of
  the source is exact).
* Bytes are modelled as `Char`s with code point below 256; a chunk of
  received bytes is a `List Char`.
* Python exceptions raised by `send` are modelled with `Except`: a raised
  `LyngdorfError` is an `Except.error` outcome.
-/

namespace Lyngdorf

/-- Truncation toward zero: the behaviour of Python `int()` applied to a
number (`int(1.5) = 1`, `int(-1.5) = -1`). -/
def pytrunc (q : ℚ) : ℤ := if 0 ≤ q then ⌊q⌋ else ⌈q⌉

/-- `models.db_to_protocol`: `return int(db * 10)` — dB value to protocol
integer at 0.1 dB resolution. -/
def db_to_protocol (db : ℚ) : ℤ := pytrunc (db * 10)

/-- `models.protocol_to_db`: `return value / 10.0` — protocol integer to
dB value. -/
def protocol_to_db (value : ℤ) : ℚ := (value : ℚ) / 10

/-- C2: for every dB value `v` representable at 0.1 dB resolution
(`v = n / 10` for an integer `n`), `protocol_to_db (db_to_protocol v) = v`;
for every representable protocol integer `n`,
`db_to_protocol (protocol_to_db n) = n`; and on such values
`db_to_protocol` computes `round (v * 10)`. -/
theorem db_roundtrip (v : ℚ) (n : ℤ) (hv : v = (n : ℚ) / 10) :
    protocol_to_db (db_to_protocol v) = v ∧
    db_to_protocol (protocol_to_db n) = n ∧
    db_to_protocol v = round (v * 10) := by
  have h10 : v * 10 = (n : ℚ) := by
    rw [hv]
    field_simp
  have htr : pytrunc ((n : ℚ)) = n := by
    unfold pytrunc
    split <;> simp
  have hdb : db_to_protocol v = n := by
    unfold db_to_protocol
    rw [h10, htr]
  refine ⟨?_, ?_, ?_⟩
  · rw [hdb, protocol_to_db, hv]
  · have : protocol_to_db n = v := by rw [protocol_to_db, hv]
    rw [this, hdb]
  · rw [hdb, h10]
    exact (round_intCast n).symm

/-- Witness for C2 at the spec's example value −45.5 dB (protocol −455). -/
theorem db_roundtrip_witness :
    protocol_to_db (db_to_protocol ((-455 : ℚ) / 10)) = (-455 : ℚ) / 10 ∧
    db_to_protocol (protocol_to_db (-455)) = -455 ∧
    db_to_protocol ((-455 : ℚ) / 10) = round (((-455 : ℚ) / 10) * 10) :=
  db_roundtrip ((-455 : ℚ) / 10) (-455) (by norm_num)

/-- The characters of a string literal, used to spell out byte strings. -/
def lchars (s : String) : List Char := s.data

/-- One atom of the restricted regular-expression language that covers
exactly the constructs appearing in `STATE_UPDATE_PATTERNS`
(`protocol.py` lines 19–33). `digits`, `signedDigits`, `onoff` and
`quoted` are the capturing groups of those patterns. -/
inductive PatTok
  | lit (s : List Char)
  | digits
  | signedDigits
  | onoff
  | quoted
deriving DecidableEq

/-- Consume the literal `l` from the front of the input, or fail. -/
def dropLit : List Char → List Char → Option (List Char)
  | [], input => some input
  | _ :: _, [] => none
  | a :: l, c :: cs => if c = a then dropLit l cs else none

/-- Match a token list at the start of the input (the anchored part of
`re.search`), returning the captured groups. Trailing input is allowed,
as in Python. Greedy `\d+` and `[^"]*` followed by a fixed delimiter
need no backtracking, so a take-while embedding is exact. -/
def matchToks : List PatTok → List Char → Option (List (List Char))
  | [], _ => some []
  | .lit s :: ts, input =>
    match dropLit s input with
    | some rest => matchToks ts rest
    | none => none
  | .digits :: ts, input =>
    match input.span (fun c => c.isDigit) with
    | (ds, rest) =>
      if ds.isEmpty then none
      else (matchToks ts rest).map (fun gs => ds :: gs)
  | .signedDigits :: ts, input =>
    match input with
    | '-' :: input1 =>
      match input1.span (fun c => c.isDigit) with
      | (ds, rest) =>
        if ds.isEmpty then none
        else (matchToks ts rest).map (fun gs => ('-' :: ds) :: gs)
    | _ =>
      match input.span (fun c => c.isDigit) with
      | (ds, rest) =>
        if ds.isEmpty then none
        else (matchToks ts rest).map (fun gs => ds :: gs)
  | .onoff :: ts, input =>
    match dropLit (lchars "ON") input with
    | some rest => (matchToks ts rest).map (fun gs => lchars "ON" :: gs)
    | none =>
      match dropLit (lchars "OFF") input with
      | some rest => (matchToks ts rest).map (fun gs => lchars "OFF" :: gs)
      | none => none
  | .quoted :: ts, input =>
    match input.span (fun c => c ≠ '"') with
    | (qs, rest) => (matchToks ts rest).map (fun gs => qs :: gs)

/-- `re.search`: try the anchored match at each position, left to right,
and return the groups of the leftmost match. -/
def searchToks (p : List PatTok) : List Char → Option (List (List Char))
  | [] => matchToks p []
  | c :: cs =>
    match matchToks p (c :: cs) with
    | some gs => some gs
    | none => searchToks p cs

/-- `STATE_UPDATE_PATTERNS` (`protocol.py` lines 19–33), in the dict's
insertion order, each regex translated token by token. -/
def STATE_UPDATE_PATTERNS : List (String × List PatTok) :=
  [("power", [.lit (lchars "!POWER("), .digits, .lit (lchars ")")]),
   ("power_zone2", [.lit (lchars "!POWERZONE2("), .digits, .lit (lchars ")")]),
   ("volume", [.lit (lchars "!VOL("), .signedDigits, .lit (lchars ")")]),
   ("volume_zone2", [.lit (lchars "!ZVOL("), .signedDigits, .lit (lchars ")")]),
   ("mute", [.lit (lchars "!MUTE"), .onoff]),
   ("mute_zone2", [.lit (lchars "!ZMUTE"), .onoff]),
   ("source", [.lit (lchars "!SRC("), .digits, .lit (lchars ")\""), .quoted, .lit (lchars "\"")]),
   ("source_zone2", [.lit (lchars "!ZSRC("), .digits, .lit (lchars ")\""), .quoted, .lit (lchars "\"")]),
   ("roomperfect_position", [.lit (lchars "!RPFOC("), .digits, .lit (lchars ")\""), .quoted, .lit (lchars "\"")]),
   ("roomperfect_voicing", [.lit (lchars "!RPVOI("), .digits, .lit (lchars ")\""), .quoted, .lit (lchars "\"")]),
   ("audio_mode", [.lit (lchars "!AUDMODE("), .digits, .lit (lchars ")\""), .quoted, .lit (lchars "\"")]),
   ("lipsync", [.lit (lchars "!LIPSYNC("), .digits, .lit (lchars ")")]),
   ("loudness", [.lit (lchars "!LOUDNESS("), .digits, .lit (lchars ")")])]

/-- The `data` dict built by `_parse_state_update`: the raw message and
the regex match's captured groups. -/
structure StateData where
  raw : List Char
  groups : List (List Char)
deriving DecidableEq

/-- Try each pattern in order and return the first that matches. -/
def findStateUpdate : List (String × List PatTok) → List Char → Option (String × StateData)
  | [], _ => none
  | (k, p) :: ps, msg =>
    match searchToks p msg with
    | some gs => some (k, ⟨msg, gs⟩)
    | none => findStateUpdate ps msg

/-- `_parse_state_update` (`protocol.py` lines 111–119): try each pattern
of `STATE_UPDATE_PATTERNS` in order; on the first match return the state
type with the raw message and groups, else `None`. -/
def parse_state_update (msg : List Char) : Option (String × StateData) :=
  findStateUpdate STATE_UPDATE_PATTERNS msg

/-- C8: classification returns at most one kind (it is a function into
`Option`, testing the patterns in the fixed order of
`STATE_UPDATE_PATTERNS`), and the line `"!POWERZONE2(1)"` classifies as
`power_zone2`; the base `power` pattern does not match that line at all,
so it never classifies as `power`. -/
theorem classify_power_zone2 :
    (parse_state_update (lchars "!POWERZONE2(1)")).map (fun r => r.1) =
      some "power_zone2" ∧
    searchToks [.lit (lchars "!POWER("), .digits, .lit (lchars ")")]
      (lchars "!POWERZONE2(1)") = none := by
  refine ⟨?_, ?_⟩ <;> decide

/-- The callback state of the protocol object: `self._state_callbacks`
(a dict from state type to a list of callbacks, modelled as an
insertion-ordered association list) and `self._general_callback`
(a single optional callback). Callbacks are identified by names. -/
structure CallbackReg where
  stateCallbacks : List (String × List String)
  generalCallback : Option String
deriving DecidableEq

/-- Dict update used by `register_state_callback`: create the key with an
empty list if absent, then append the callback. -/
def addCb : List (String × List String) → String → String → List (String × List String)
  | [], k, cb => [(k, [cb])]
  | (k1, v) :: rest, k, cb =>
    if k1 = k then (k1, v ++ [cb]) :: rest
    else (k1, v) :: addCb rest k cb

/-- `register_state_callback` (`protocol.py` lines 99–104). -/
def register_state_callback (r : CallbackReg) (k cb : String) : CallbackReg :=
  { r with stateCallbacks := addCb r.stateCallbacks k cb }

/-- `register_general_callback` (`protocol.py` lines 106–109):
`self._general_callback = callback` — assignment, not append. -/
def register_general_callback (r : CallbackReg) (cb : String) : CallbackReg :=
  { r with generalCallback := some cb }

/-- Dict lookup `self._state_callbacks[state_type]`. -/
def lookupCbs : List (String × List String) → String → Option (List String)
  | [], _ => none
  | (k1, v) :: rest, k => if k1 = k then some v else lookupCbs rest k

/-- The kind-specific callbacks run by `_dispatch_state_update`: the
registered list when `state_type in self._state_callbacks`, else none. -/
def kindCbs (r : CallbackReg) (k : String) : List String :=
  match lookupCbs r.stateCallbacks k with
  | some cbs => cbs
  | none => []

/-- `_dispatch_state_update` (`protocol.py` lines 121–142), modelled as
the ordered list of callbacks it invokes for a given state type: first
each kind-specific callback in list order, then the general callback if
one is set. -/
def dispatch_state_update (r : CallbackReg) (k : String) : List String :=
  kindCbs r k ++ r.generalCallback.toList

/-- C5 counterexample: after registering kind callback `v1` for
`volume` and then two general ("any") callbacks `g1` and `g2`, a
dispatch for `volume` invokes only `v1` and `g2`; the earlier "any"
handler `g1` is never invoked, because `register_general_callback`
overwrites the single `_general_callback` slot. -/
theorem dispatch_any_overwrites_cex :
    dispatch_state_update
      (register_general_callback
        (register_general_callback
          (register_state_callback ⟨[], none⟩ "volume" "v1") "g1") "g2")
      "volume" = ["v1", "g2"] ∧
    "g1" ∉ dispatch_state_update
      (register_general_callback
        (register_general_callback
          (register_state_callback ⟨[], none⟩ "volume" "v1") "g1") "g2")
      "volume" := by
  refine ⟨?_, ?_⟩ <;> decide

/-- Auxiliary: `addCb` appends the new callback at the end of the list
registered under its key, preserving registration order. -/
theorem lookupCbs_addCb (m : List (String × List String)) (k cb : String) :
    lookupCbs (addCb m k cb) k =
      some ((match lookupCbs m k with | some cbs => cbs | none => []) ++ [cb]) := by
  induction m with
  | nil => simp [addCb, lookupCbs]
  | cons p rest ih =>
    obtain ⟨k1, v⟩ := p
    by_cases h : k1 = k
    · simp [addCb, lookupCbs, h]
    · simp [addCb, lookupCbs, h, ih]

/-- C5 amended: a dispatch for kind `k` invokes all callbacks registered
for `k`, in registration order (`register_state_callback` appends at the
end), followed by the single most recently registered "any" callback;
registering a new "any" callback replaces the previous one, so earlier
"any" callbacks are not invoked. -/
theorem dispatch_order_amended (r : CallbackReg) (k cb g : String) :
    dispatch_state_update (register_general_callback r g) k = kindCbs r k ++ [g] ∧
    kindCbs (register_state_callback r k cb) k = kindCbs r k ++ [cb] := by
  refine ⟨rfl, ?_⟩
  unfold kindCbs register_state_callback
  rw [lookupCbs_addCb]

/-- `bytes.decode('ascii', errors='ignore')`: keep only bytes below 128. -/
def asciiDecode (data : List Char) : List Char :=
  data.filter (fun c => c.toNat < 128)

/-- Python `str.isspace` for characters in the ASCII range (the only ones
left after an ASCII decode): tab through carriage return, the file/group/
record/unit separators 0x1c–0x1f, and space. -/
def isPySpace (c : Char) : Bool :=
  (9 ≤ c.toNat && c.toNat ≤ 13) || (28 ≤ c.toNat && c.toNat ≤ 31) || c.toNat = 32

/-- Python `str.strip()`: drop whitespace from both ends. -/
def pystrip (l : List Char) : List Char :=
  ((l.dropWhile isPySpace).reverse.dropWhile isPySpace).reverse

/-- Python `bytes.split(sep)` for a single separator byte:
`b"a\rb".split(b"\r") = [b"a", b"b"]`, `b"".split(b"\r") = [b""]`. -/
def splitOnChar (sep : Char) : List Char → List (List Char)
  | [] => [[]]
  | c :: cs =>
    if c = sep then [] :: splitOnChar sep cs
    else
      match splitOnChar sep cs with
      | [] => [[c]]
      | l :: ls => (c :: l) :: ls

/-- The observable state of a `LyngdorfProtocol` object: the send mutex
`self._lock`, the connection event `self._connected` (`true` iff the
event is, or becomes within `self._timeout`, set), the reply queue
`self._q` of received chunks, the registered callbacks, and — as the
observable trace of `_dispatch_state_update` calls — the list of
`(state_type, data)` dispatches made so far. -/
structure Engine where
  locked : Bool
  connected : Bool
  queue : List (List Char)
  callbacks : CallbackReg
  dispatched : List (String × StateData)
deriving DecidableEq

/-- `data_received` (`protocol.py` lines 150–171): always put the chunk
on the reply queue; independently, decode and strip the whole chunk and,
if the result is non-empty and does not start with the echo marker `#`,
classify it with `_parse_state_update` and, on a match, dispatch the
state update to the callbacks. -/
def data_received (e : Engine) (data : List Char) : Engine :=
  let e1 : Engine := { e with queue := e.queue ++ [data] }
  match pystrip (asciiDecode data) with
  | [] => e1
  | c :: cs =>
    if c = '#' then e1
    else
      match parse_state_update (c :: cs) with
      | some (k, d) => { e1 with dispatched := e1.dispatched ++ [(k, d)] }
      | none => e1

/-- The buffer-clearing step at the start of `send` (`protocol.py` lines
193–197): reset the transport buffers (no observable effect here) and
drain every pending entry from the reply queue. -/
def drain_queue (e : Engine) : Engine :=
  { e with queue := [] }

/-- C9: a received chunk whose ASCII-decoded, stripped text begins with
the echo marker `#` dispatches no state-update callback at all — the
push path classifies whole chunks, so this holds even when the chunk
contains a complete non-echo state-update line after the echo line. -/
theorem chunk_echo_no_dispatch (e : Engine) (data : List Char)
    (h : (pystrip (asciiDecode data)).head? = some '#') :
    (data_received e data).dispatched = e.dispatched := by
  unfold data_received
  cases hm : pystrip (asciiDecode data) with
  | nil => simp [hm] at h
  | cons c cs =>
    rw [hm] at h
    simp only [List.head?] at h
    have hc : c = '#' := by injection h
    simp [hm, hc]

/-- Witness for C9: the chunk `"#!VOL(-350)\r!VOL(-350)\r"` starts with
`#` after stripping, so no dispatch happens on an engine with a
registered `volume` callback, even though the chunk contains the
complete state-update line `"!VOL(-350)"`, which on its own classifies
as `volume`. -/
theorem chunk_echo_no_dispatch_witness :
    (pystrip (asciiDecode (lchars "#!VOL(-350)\r!VOL(-350)\r"))).head? = some '#' ∧
    (data_received ⟨false, true, [], ⟨[("volume", ["v1"])], none⟩, []⟩
      (lchars "#!VOL(-350)\r!VOL(-350)\r")).dispatched = [] ∧
    lchars "!VOL(-350)" ∈ splitOnChar '\r' (lchars "#!VOL(-350)\r!VOL(-350)\r") ∧
    (parse_state_update (lchars "!VOL(-350)")).map (fun r => r.1) = some "volume" :=
  ⟨by decide,
   chunk_echo_no_dispatch ⟨false, true, [], ⟨[("volume", ["v1"])], none⟩, []⟩
     (lchars "#!VOL(-350)\r!VOL(-350)\r") (by decide),
   by decide, by decide⟩

/-- C7 counterexample: the line `"!VOL(-350)"` is received (as part of
the chunk `"#!VOL(-350)\r!VOL(-350)\r"`) and matches the `volume`
state-update pattern, yet no dispatch to the callback dispatcher occurs,
because classification is applied to the whole chunk, which starts with
`#`. So not every received line that matches a pattern is routed. -/
theorem line_routing_cex :
    lchars "!VOL(-350)" ∈ splitOnChar '\r' (lchars "#!VOL(-350)\r!VOL(-350)\r") ∧
    (parse_state_update (lchars "!VOL(-350)")).map (fun r => r.1) = some "volume" ∧
    (data_received ⟨false, true, [], ⟨[("volume", ["v1"])], none⟩, []⟩
      (lchars "#!VOL(-350)\r!VOL(-350)\r")).dispatched = [] := by
  refine ⟨by decide, by decide, by decide⟩

/-- C7 amended: every received chunk is unconditionally appended to the
reply queue; the dispatch decision is independent of the queue contents
(so consumption of the chunk as a reply never suppresses the push-path
notification); and when the whole stripped chunk is non-empty, does not
start with `#`, and matches a state-update pattern, the update is
additionally dispatched — but classification is per chunk, not per
line. -/
theorem chunk_routing_amended (e : Engine) (data : List Char)
    (q1 q2 : List (List Char)) (c : Char) (k : String) (d : StateData) :
    (data_received e data).queue = e.queue ++ [data] ∧
    (data_received { e with queue := q1 } data).dispatched =
      (data_received { e with queue := q2 } data).dispatched ∧
    ((pystrip (asciiDecode data)).head? = some c → c ≠ '#' →
      parse_state_update (pystrip (asciiDecode data)) = some (k, d) →
      (data_received e data).dispatched = e.dispatched ++ [(k, d)]) := by
  refine ⟨?_, ?_, ?_⟩
  · unfold data_received
    cases hm : pystrip (asciiDecode data) with
    | nil => rfl
    | cons a as =>
      by_cases ha : a = '#'
      · simp [ha]
      · simp only [ha, if_false]
        cases parse_state_update (a :: as) with
        | none => rfl
        | some r => rfl
  · unfold data_received
    cases hm : pystrip (asciiDecode data) with
    | nil => rfl
    | cons a as =>
      by_cases ha : a = '#'
      · simp [ha]
      · simp only [ha, if_false]
        cases parse_state_update (a :: as) with
        | none => rfl
        | some r => rfl
  · intro hhead hc hp
    unfold data_received
    cases hm : pystrip (asciiDecode data) with
    | nil => rw [hm] at hhead; simp at hhead
    | cons a as =>
      rw [hm] at hhead hp
      simp only [List.head?] at hhead
      have ha : a = c := by injection hhead
      subst ha
      simp [hc, hp]

/-- Witness for C7 amended at the unsolicited line `"!VOL(-300)\r"`:
the chunk is queued, and the `volume` update with groups `["-300"]` is
dispatched. -/
theorem chunk_routing_amended_witness :
    (data_received ⟨false, true, [], ⟨[("volume", ["v1"])], none⟩, []⟩
      (lchars "!VOL(-300)\r")).queue = [lchars "!VOL(-300)\r"] ∧
    (data_received ⟨false, true, [], ⟨[("volume", ["v1"])], none⟩, []⟩
      (lchars "!VOL(-300)\r")).dispatched =
      [("volume", ⟨lchars "!VOL(-300)", [lchars "-300"]⟩)] :=
  have h := chunk_routing_amended
    ⟨false, true, [], ⟨[("volume", ["v1"])], none⟩, []⟩
    (lchars "!VOL(-300)\r") [] [] '!' "volume"
    ⟨lchars "!VOL(-300)", [lchars "-300"]⟩
  ⟨h.1, h.2.2 (by decide) (by decide) (by decide)⟩

/-- C10: state-update dispatch happens at the moment data is received
and is recorded independently of the reply queue, so the buffer-clearing
step at the start of `send`, which drains the queue, never removes a
dispatched state-update notification: after receiving a chunk and then
clearing, the dispatch trace is intact (and extends the previous trace)
while the queue is empty. -/
theorem dispatch_survives_clear (e : Engine) (data : List Char) :
    (drain_queue (data_received e data)).dispatched =
      (data_received e data).dispatched ∧
    (drain_queue (data_received e data)).queue = [] ∧
    ∃ evts, (data_received e data).dispatched = e.dispatched ++ evts := by
  refine ⟨rfl, rfl, ?_⟩
  unfold data_received
  cases pystrip (asciiDecode data) with
  | nil => exact ⟨[], by simp⟩
  | cons a as =>
    by_cases ha : a = '#'
    · exact ⟨[], by simp [ha]⟩
    · simp only [ha, if_false]
      cases parse_state_update (a :: as) with
      | none => exact ⟨[], by simp⟩
      | some r => exact ⟨[(r.1, r.2)], rfl⟩

/-- The exceptions of `exceptions.py` that `send` can raise, carrying the
exception's message string. -/
inductive LyngdorfError
  | connectionError (msg : String)
  | timeoutError (msg : String)
deriving DecidableEq

/-- The configuration `send` reads: `self._response_eol` (a single byte,
`'\r'` as configured by `models.RESPONSE_EOL`) and the decimal rendering
of `self._timeout` as it appears in f-strings (e.g. `"2.0"`). -/
structure SendConfig where
  eol : Char
  timeoutRepr : String
deriving DecidableEq

/-- The message of the `TimeoutError` raised by `send`
(`protocol.py` lines 247–249): `f'Timeout waiting for response: {self._timeout}s'`. -/
def timeout_message (cfg : SendConfig) : String :=
  "Timeout waiting for response: " ++ cfg.timeoutRepr ++ "s"

/-- The reply-reading loop of `send` (`protocol.py` lines 208–249).
The first argument is the accumulated `data` buffer; the second is the
stream of chunks returned by successive `self._q.get()` calls, with
exhaustion of the stream standing for the `asyncio.wait_for` deadline
expiring. On each chunk: append to the buffer; if the terminator is in
the buffer, split on it, drop empty lines, return `""` if none remain,
drop echo lines (leading `#`), continue with an emptied buffer if only
echo remained, else return the first remaining line decoded; without a
terminator keep accumulating. -/
def recvLoop (cfg : SendConfig) : List Char → List (List Char) → Except LyngdorfError String
  | _, [] => .error (.timeoutError (timeout_message cfg))
  | data, chunk :: rest =>
    if cfg.eol ∈ data ++ chunk then
      if ((splitOnChar cfg.eol (data ++ chunk)).filter (fun l => !l.isEmpty)).isEmpty then
        .ok ""
      else
        match ((splitOnChar cfg.eol (data ++ chunk)).filter (fun l => !l.isEmpty)).filter
            (fun l => !(l.head? == some '#')) with
        | [] => recvLoop cfg [] rest
        | s :: _ => .ok (String.mk (asciiDecode s))
    else recvLoop cfg (data ++ chunk) rest

/-- The `locked_method` decorator (`protocol.py` lines 45–52):
`async with self._lock` — acquire the mutex (waiting until it is free),
run the body, and release on every exit; an `Except.error` outcome of the
body models an exception propagating out of the `with` block. -/
def with_lock (body : Engine → Except LyngdorfError (Option String) × Engine)
    (e : Engine) : Except LyngdorfError (Option String) × Engine :=
  let r := body { e with locked := true }
  (r.1, { r.2 with locked := false })

/-- The `ensure_connected` decorator (`protocol.py` lines 54–65):
`e.connected` is `true` iff the `self._connected` event is set within
`self._timeout`; otherwise the decorator logs and returns `None` without
running the body. -/
def ensure_connected (body : Engine → Except LyngdorfError (Option String) × Engine)
    (e : Engine) : Except LyngdorfError (Option String) × Engine :=
  if e.connected then body e else (.ok none, e)

/-- The body of `send` (`protocol.py` lines 189–249) after the two
decorators: throttle (no observable effect here), clear the transport
buffers and drain the reply queue, write the command (the transport is
not modelled further), then, when `wait_for_reply`, run the reply loop
over the chunks that subsequently arrive. -/
def send_core (cfg : SendConfig) (waitForReply : Bool) (incoming : List (List Char))
    (e : Engine) : Except LyngdorfError (Option String) × Engine :=
  let e1 := drain_queue e
  if waitForReply then
    match recvLoop cfg [] incoming with
    | .ok s => (.ok (some s), e1)
    | .error err => (.error err, e1)
  else (.ok none, e1)

/-- `send` (`protocol.py` lines 187–249): `@locked_method` then
`@ensure_connected` around the body. -/
def send (cfg : SendConfig) (waitForReply : Bool) (incoming : List (List Char)) :
    Engine → Except LyngdorfError (Option String) × Engine :=
  with_lock (ensure_connected (send_core cfg waitForReply incoming))

/-- C1 counterexample: on an engine that does not reach `Connected`
within the bounded timeout, `send` resolves to `None` — no reply and no
raised error, in particular no `ConnectionError`. -/
theorem send_disconnected_cex :
    (send ⟨'\r', "2.0"⟩ true [] ⟨false, false, [], ⟨[], none⟩, []⟩).1 = .ok none := rfl

/-- C1 amended: for every call to `send` while the connection is not
established, if `Connected` is not reached within the bounded timeout,
`send` logs and returns `None` without sending: it resolves silently
with neither a reply nor an explicit failure. -/
theorem send_disconnected_returns_none (cfg : SendConfig) (w : Bool)
    (incoming : List (List Char)) (e : Engine) (h : e.connected = false) :
    (send cfg w incoming e).1 = .ok none := by
  simp [send, with_lock, ensure_connected, h]

/-- Witness for C1 amended on a concrete disconnected engine. -/
theorem send_disconnected_returns_none_witness :
    (Engine.mk false false [] ⟨[], none⟩ []).connected = false ∧
    (send ⟨'\r', "2.0"⟩ false [lchars "!VOL(-300)\r"]
      (Engine.mk false false [] ⟨[], none⟩ [])).1 = .ok none :=
  ⟨rfl, send_disconnected_returns_none ⟨'\r', "2.0"⟩ false [lchars "!VOL(-300)\r"]
    (Engine.mk false false [] ⟨[], none⟩ []) rfl⟩

/-- C3: when a terminator-delimited batch of lines arrives, the reply
loop discards empty lines and lines beginning with the echo marker `#`,
and returns the first remaining line as the reply; if the batch contains
only echo lines it continues reading (with an emptied buffer) rather
than returning. -/
theorem send_reply_selection (cfg : SendConfig) (data chunk : List Char)
    (rest : List (List Char)) (heol : cfg.eol ∈ data ++ chunk) :
    (∀ s tl,
      ((splitOnChar cfg.eol (data ++ chunk)).filter (fun l => !l.isEmpty)).filter
        (fun l => !(l.head? == some '#')) = s :: tl →
      recvLoop cfg data (chunk :: rest) = .ok (String.mk (asciiDecode s))) ∧
    (((splitOnChar cfg.eol (data ++ chunk)).filter (fun l => !l.isEmpty)).filter
        (fun l => !(l.head? == some '#')) = [] →
      (splitOnChar cfg.eol (data ++ chunk)).filter (fun l => !l.isEmpty) ≠ [] →
      recvLoop cfg data (chunk :: rest) = recvLoop cfg [] rest) := by
  constructor
  · intro s tl hst
    have hlines :
        ¬(((splitOnChar cfg.eol (data ++ chunk)).filter (fun l => !l.isEmpty)).isEmpty = true) := by
      intro hl
      rw [List.isEmpty_iff] at hl
      rw [hl] at hst
      simp at hst
    simp only [recvLoop]
    rw [if_pos heol, if_neg hlines, hst]
  · intro hst hlines
    have hl2 :
        ¬(((splitOnChar cfg.eol (data ++ chunk)).filter (fun l => !l.isEmpty)).isEmpty = true) := by
      intro hl
      exact hlines (List.isEmpty_iff.mp hl)
    simp only [recvLoop]
    rw [if_pos heol, if_neg hl2, hst]

/-- Witness for C3 at the spec's example: the batch
`"#!VOL(-350)\r!VOL(-350)\r"` yields the second line `"!VOL(-350)"`,
the echo line being ignored. -/
theorem send_reply_selection_witness :
    '\r' ∈ ([] : List Char) ++ lchars "#!VOL(-350)\r!VOL(-350)\r" ∧
    recvLoop ⟨'\r', "2.0"⟩ [] [lchars "#!VOL(-350)\r!VOL(-350)\r"] = .ok "!VOL(-350)" := by
  refine ⟨by decide, ?_⟩
  have h := (send_reply_selection ⟨'\r', "2.0"⟩ [] (lchars "#!VOL(-350)\r!VOL(-350)\r")
    [] (by decide)).1 (lchars "!VOL(-350)") [] (by decide)
  exact h.trans (congrArg Except.ok (by decide))

/-- Auxiliary: `send` never changes the connection flag. -/
theorem send_preserves_connected (cfg : SendConfig) (w : Bool)
    (inc : List (List Char)) (e : Engine) :
    ((send cfg w inc e).2).connected = e.connected := by
  unfold send with_lock ensure_connected send_core drain_queue
  by_cases h : e.connected = true
  · simp only [h, if_true]
    cases w
    · simp
    · simp only [Bool.true_eq]
      cases recvLoop cfg [] inc <;> simp
  · simp [h]

/-- Auxiliary: the outcome of `send` depends on the engine only through
its connection flag. -/
theorem send_result_congr (cfg : SendConfig) (w : Bool) (inc : List (List Char))
    (e1 e2 : Engine) (h : e1.connected = e2.connected) :
    (send cfg w inc e1).1 = (send cfg w inc e2).1 := by
  unfold send with_lock ensure_connected send_core drain_queue
  by_cases hc : e1.connected = true
  · have hc2 : e2.connected = true := by rw [← h]; exact hc
    simp only [hc, hc2, if_true]
    cases w
    · simp
    · simp only [Bool.true_eq]
      cases recvLoop cfg [] inc <;> simp
  · have hc2 : ¬(e2.connected = true) := by rw [← h]; exact hc
    simp [hc, hc2]

/-- C4: `send` releases the send-mutex on every exit path — the lock is
free after the call whatever its outcome (normal return, `TimeoutError`,
or any other error outcome of the body) — and a second `send` issued
immediately afterwards proceeds exactly as it would on a fresh engine. -/
theorem send_releases_lock (cfg cfg2 : SendConfig) (w w2 : Bool)
    (inc inc2 : List (List Char)) (e : Engine) :
    ((send cfg w inc e).2).locked = false ∧
    (send cfg2 w2 inc2 (send cfg w inc e).2).1 = (send cfg2 w2 inc2 e).1 :=
  ⟨rfl, send_result_congr cfg2 w2 inc2 _ e (send_preserves_connected cfg w inc e)⟩

/-- Auxiliary: if the terminator never occurs in the buffer nor in any
arriving chunk, the reply loop ends in the timeout error. -/
theorem recvLoop_no_eol (cfg : SendConfig) :
    ∀ (inc : List (List Char)) (data : List Char),
      cfg.eol ∉ data → cfg.eol ∉ inc.flatten →
      recvLoop cfg data inc = .error (.timeoutError (timeout_message cfg))
  | [], _, _, _ => rfl
  | chunk :: rest, data, hd, hj => by
    have hchunk : cfg.eol ∉ chunk := by
      intro h
      exact hj (by simp only [List.flatten_cons, List.mem_append]; exact Or.inl h)
    have hrest : cfg.eol ∉ rest.flatten := by
      intro h
      exact hj (by simp only [List.flatten_cons, List.mem_append]; exact Or.inr h)
    have hdc : cfg.eol ∉ data ++ chunk := by
      intro h
      rcases List.mem_append.mp h with h | h
      · exact hd h
      · exact hchunk h
    simp only [recvLoop]
    rw [if_neg hdc]
    exact recvLoop_no_eol cfg rest (data ++ chunk) hdc hrest

/-- C6 counterexample: two timed-out `send` calls that buffered different
partial bytes (`"ABC"` vs `"XY"`, neither containing the terminator)
raise literally the same `TimeoutError`, whose message states only the
timeout duration — the error does not carry the buffered bytes. -/
theorem timeout_error_no_buffer_cex :
    (send ⟨'\r', "2.0"⟩ true [lchars "ABC"] (Engine.mk false true [] ⟨[], none⟩ [])).1 =
      .error (.timeoutError "Timeout waiting for response: 2.0s") ∧
    (send ⟨'\r', "2.0"⟩ true [lchars "XY"] (Engine.mk false true [] ⟨[], none⟩ [])).1 =
      .error (.timeoutError "Timeout waiting for response: 2.0s") :=
  ⟨rfl, rfl⟩

/-- C6 amended: when `send` times out waiting for a qualifying reply, the
`TimeoutError` it fails with carries only the configured timeout duration
in its message (`"Timeout waiting for response: {timeout}s"`); it is the
same whatever partial bytes were buffered — those appear only in a logged
warning, not on the raised error. -/
theorem timeout_error_only_duration (cfg : SendConfig) (inc : List (List Char))
    (e : Engine) (hc : e.connected = true) (hne : cfg.eol ∉ inc.flatten) :
    (send cfg true inc e).1 =
      .error (.timeoutError ("Timeout waiting for response: " ++ cfg.timeoutRepr ++ "s")) := by
  have h := recvLoop_no_eol cfg inc [] (by simp) hne
  simp [send, with_lock, ensure_connected, send_core, hc, h, timeout_message]

/-- Witness for C6 amended on a connected engine receiving only the
terminator-free partial chunk `"ABC"`. -/
theorem timeout_error_only_duration_witness :
    (Engine.mk false true [] ⟨[], none⟩ []).connected = true ∧
    '\r' ∉ ([lchars "ABC"] : List (List Char)).flatten ∧
    (send ⟨'\r', "2.0"⟩ true [lchars "ABC"] (Engine.mk false true [] ⟨[], none⟩ [])).1 =
      .error (.timeoutError ("Timeout waiting for response: " ++ "2.0" ++ "s")) :=
  ⟨rfl, by decide,
   timeout_error_only_duration ⟨'\r', "2.0"⟩ [lchars "ABC"]
     (Engine.mk false true [] ⟨[], none⟩ []) rfl (by decide)⟩

end Lyngdorf
